import Mathlib

/-
Verification development for snapcraft's APT repository key management
(`src/snapcraft/repo/apt_key_manager.py`).

The Python module is embedded shallowly:
  * pure helpers (`_keyring_file`, `_gpg_prefix`, `_gnupg_ring`,
    short-identifier slicing) become Lean functions on `String`;
  * the filesystem becomes an explicit `Fs` state (keyring files with their
    key sets and permission modes, plus read-only key asset files);
  * the external `gpg` subprocess becomes an abstract oracle
    `Invocation → Fs → ProcResult × Fs`; every subprocess call the code makes
    is also recorded in an invocation trace, and `emit.debug`/`emit.progress`
    calls are recorded in a log list;
  * Python exceptions (`AptGPGKeyInstallError`, `RuntimeError`) become
    `Except` results.
-/

/-- Embedding of Python `s.upper()` (character-wise upper-casing). -/
def pyUpper (s : String) : String := String.mk (s.data.map Char.toUpper)

/-- Embedding of Python `s[-n:]` for `n > 0`: the last `n` characters of `s`,
or the whole string when it is shorter than `n`. -/
def pySliceLast (n : Nat) (s : String) : String :=
  String.mk (s.data.drop (s.data.length - n))

/-- Embeds `_keyring_file(key_id, keyrings_dir=None)`: resolve the keyring
path `<dir>/craft-<SHORT_ID>.gpg`, defaulting the directory to
`/etc/apt/keyrings` when `None` is passed. -/
def _keyring_file (key_id : String) (keyrings_dir : Option String) : String :=
  let target_dir := match keyrings_dir with
    | none => "/etc/apt/keyrings"
    | some d => d
  let short_id := pyUpper (pySliceLast 8 key_id)
  target_dir ++ "/craft-" ++ short_id ++ ".gpg"

/-- Embeds `_gpg_prefix()`: the fixed baseline gpg command line. -/
def _gpg_prefix : List String := ["gpg", "--batch", "--no-default-keyring"]

/-- Embeds `_gnupg_ring(keyring_file)`. -/
def _gnupg_ring (keyring_file : String) : String := "gnupg-ring:" ++ keyring_file

/-- Modelled from the spec: the *short identifier* of a key identifier is its
last 8 characters upper-cased; for identifiers shorter than 8 characters it is
the whole identifier upper-cased (no padding, no error).  Used only to compare
the spec's description of the path resolver against `_keyring_file`. -/
def shortIdSpec (key_id : String) : String :=
  if 8 ≤ key_id.length then
    pyUpper (String.mk (key_id.data.drop (key_id.data.length - 8)))
  else
    pyUpper key_id

lemma pySliceLast_eq_spec (key_id : String) :
    pyUpper (pySliceLast 8 key_id) = shortIdSpec key_id := by
  unfold pySliceLast shortIdSpec
  by_cases h : 8 ≤ key_id.length
  · rw [if_pos h]
  · rw [if_neg h]
    have h0 : key_id.data.length - 8 = 0 := by
      have hlt : key_id.data.length < 8 := Nat.lt_of_not_le h
      omega
    rw [h0, List.drop_zero]

/-- The claim C3, stated the way it is written: the resolved path is
`<dir>/craft-<SHORT_ID>.gpg` with the short identifier as described. -/
theorem keyring_path_resolution (key_id dir : String) (h : key_id ≠ "") :
    _keyring_file key_id (some dir) =
      dir ++ "/craft-" ++ shortIdSpec key_id ++ ".gpg" ∧
    _keyring_file key_id none =
      "/etc/apt/keyrings" ++ "/craft-" ++ shortIdSpec key_id ++ ".gpg" := by
  constructor <;> simp [_keyring_file, pySliceLast_eq_spec]

/-- Witness for `keyring_path_resolution` at a concrete identifier, checking
both the long-identifier case and (separately evaluable) the path shape. -/
theorem keyring_path_resolution_witness :
    ("ABCD1234EF567890" : String) ≠ "" ∧
      _keyring_file "ABCD1234EF567890" (some "/etc/apt/keyrings") =
        "/etc/apt/keyrings" ++ "/craft-" ++ shortIdSpec "ABCD1234EF567890" ++ ".gpg" :=
  ⟨by decide, (keyring_path_resolution "ABCD1234EF567890" "/etc/apt/keyrings" (by decide)).1⟩

/-! ## Filesystem and subprocess model -/

/-- Association-list update: set key `k` to value `v`, replacing any previous
binding. -/
def setAssoc {α : Type} (m : List (String × α)) (k : String) (v : α) :
    List (String × α) :=
  (k, v) :: m.filter (fun p => p.1 ≠ k)

/-- Association-list lookup. -/
def lookupAssoc {α : Type} (m : List (String × α)) (k : String) : Option α :=
  (m.find? (fun p => p.1 = k)).map (fun p => p.2)

/-- Filesystem state: keyring files (path to the set of key identifiers the
external tool has imported into them), file permission modes, and the
read-only key asset files (path to ASCII-armored contents). -/
structure Fs where
  keyrings : List (String × List String)
  modes : List (String × Nat)
  assets : List (String × String)
deriving Repr, DecidableEq

/-- Does a keyring file exist at path `p`? -/
def Fs.fileExists (fs : Fs) (p : String) : Bool :=
  (lookupAssoc fs.keyrings p).isSome

/-- Key identifiers stored in the keyring file at `p` (empty if absent). -/
def Fs.keysIn (fs : Fs) (p : String) : List String :=
  (lookupAssoc fs.keyrings p).getD []

/-- Add keys to the keyring file at `p`, creating it when missing.  Imports
are additive and duplicate-free, matching gpg's import semantics. -/
def Fs.addKeys (fs : Fs) (p : String) (ks : List String) : Fs :=
  { fs with keyrings :=
      (setAssoc fs.keyrings p
        (fs.keysIn p ++ ks.filter (fun k => k ∉ fs.keysIn p))) }

/-- Embedding of `os.chmod`: set the permission mode recorded for `p`. -/
def Fs.chmod (fs : Fs) (p : String) (m : Nat) : Fs :=
  { fs with modes := setAssoc fs.modes p m }

/-- Permission mode recorded for path `p`. -/
def Fs.mode (fs : Fs) (p : String) : Option Nat :=
  lookupAssoc fs.modes p

/-- Does an asset file exist at path `p`? -/
def Fs.assetExists (fs : Fs) (p : String) : Bool :=
  (lookupAssoc fs.assets p).isSome

/-- Embedding of `key_path.read_text()` on an asset file. -/
def Fs.assetText (fs : Fs) (p : String) : String :=
  (lookupAssoc fs.assets p).getD ""

/-- One `subprocess.run` call: the argument list, the `env` mapping passed
(`none` when the call inherits the process environment), and the bytes fed to
standard input, if any. -/
structure Invocation where
  cmd : List String
  env : Option (List (String × String))
  stdin : Option String
deriving Repr, DecidableEq

/-- Exit status and combined stdout/stderr of a finished subprocess. -/
structure ProcResult where
  returncode : Int
  output : String
deriving Repr, DecidableEq

/-- The external gpg tool, abstracted: maps an invocation and the current
filesystem to an exit status/output and the filesystem it leaves behind. -/
abbrev Subprocess := Invocation → Fs → ProcResult × Fs

/-- A `craft_cli.emit` message: `emit.debug` or `emit.progress`. -/
inductive LogMsg where
  | debug (msg : String)
  | progress (msg : String) (permanent : Bool)
deriving Repr, DecidableEq

/-- Is this log entry an `emit.progress` message? -/
def LogMsg.isProgress : LogMsg → Bool
  | .progress _ _ => true
  | .debug _ => false

/-- The `--list-key` subprocess call built by `is_key_installed`: the command
line from its `cmd = _gpg_prefix() + [...]` expression and the
`subprocess.run` keyword arguments (no `env`, no stdin). -/
def listKeyInv (key_id : String) : Invocation :=
  { cmd := _gpg_prefix ++
      ["--keyring", _gnupg_ring (_keyring_file key_id none), "--list-key", key_id],
    env := none, stdin := none }

/-- The `--import` subprocess call built by `install_key`: its command line
plus `env={"LANG": "C.UTF-8"}` and the key material on stdin. -/
def importInv (keyrings_dir key key_id : String) : Invocation :=
  { cmd := _gpg_prefix ++
      ["--keyring", _gnupg_ring (_keyring_file key_id (some keyrings_dir)),
       "--import", "-"],
    env := some [("LANG", "C.UTF-8")], stdin := some key }

/-- The `--recv-keys` subprocess call built by `install_key_from_keyserver`:
its command line plus `env={"LANG": "C.UTF-8"}` and no stdin. -/
def recvKeysInv (keyrings_dir tmpdir key_id key_server : String) : Invocation :=
  { cmd := _gpg_prefix ++
      ["--homedir", tmpdir, "--keyring",
       _gnupg_ring (_keyring_file key_id (some keyrings_dir)),
       "--keyserver", key_server, "--recv-keys", key_id],
    env := some [("LANG", "C.UTF-8")], stdin := none }

/-! ## The embedded methods of `AptKeyManager` -/

/-- Embeds `AptKeyManager.find_asset_with_key_id`: look for
`<SHORT_ID>.asc` under the configured assets directory. -/
def find_asset_with_key_id (key_assets : String) (key_id : String) (fs : Fs) :
    Option String :=
  let key_file := pyUpper (pySliceLast 8 key_id) ++ ".asc"
  let key_path := key_assets ++ "/" ++ key_file
  if fs.assetExists key_path then some key_path else none

/-- Result of the embedded `is_key_installed`: the returned boolean, emitted
log messages, subprocess invocations made, and the filesystem afterwards. -/
structure CheckResult where
  installed : Bool
  logs : List LogMsg
  invocations : List Invocation
  fs : Fs
deriving Repr, DecidableEq

/-- Embeds the classmethod `AptKeyManager.is_key_installed`.  Note it calls
`_keyring_file(key_id)` with no directory, so the path is always resolved
against the fixed default `/etc/apt/keyrings`.  The function always returns a
boolean — a failing subprocess is caught, never re-raised. -/
def is_key_installed (o : Subprocess) (key_id : String) (fs : Fs) :
    CheckResult :=
  let keyring_file := _keyring_file key_id none
  if fs.fileExists keyring_file = false then
    { installed := false
      logs := [.debug ("Keyring file not found: " ++ keyring_file)]
      invocations := []
      fs := fs }
  else
    let inv := listKeyInv key_id
    let pr := o inv fs
    if pr.1.returncode ≠ 0 then
      { installed := false
        logs := [.debug ("Executing command: " ++ String.intercalate " " inv.cmd)] ++
          (if pr.1.returncode ≠ 2 then
            [.progress ("Unexpected gpg failure: " ++ pr.1.output) true]
          else [])
        invocations := [inv]
        fs := pr.2 }
    else
      { installed := true
        logs := [.debug ("Executing command: " ++ String.intercalate " " inv.cmd)]
        invocations := [inv]
        fs := pr.2 }

/-- Embedding of `errors.AptGPGKeyInstallError`: raised with the tool's
combined output plus either the key material (import path) or the key id and
key server (keyserver path). -/
inductive AptGPGKeyInstallError where
  | fromKey (output : String) (key : String)
  | fromKeyserver (output : String) (key_id : String) (key_server : String)
deriving Repr, DecidableEq

/-- Errors the orchestrator can raise: a gpg install failure, or the
`RuntimeError` contract violation for an unhandled repository variant. -/
inductive InstallError where
  | gpg (e : AptGPGKeyInstallError)
  | runtime (msg : String)
deriving Repr, DecidableEq

instance exceptDecEq {ε α : Type} [DecidableEq ε] [DecidableEq α] :
    DecidableEq (Except ε α) := fun x y =>
  match x, y with
  | .ok a, .ok b =>
    if h : a = b then .isTrue (by rw [h])
    else .isFalse (fun hc => by cases hc; exact h rfl)
  | .error a, .error b =>
    if h : a = b then .isTrue (by rw [h])
    else .isFalse (fun hc => by cases hc; exact h rfl)
  | .ok _, .error _ => .isFalse (fun hc => by cases hc)
  | .error _, .ok _ => .isFalse (fun hc => by cases hc)

/-- Result of an embedded installer method. -/
structure InstallResult where
  result : Except AptGPGKeyInstallError Unit
  logs : List LogMsg
  invocations : List Invocation
  fs : Fs
deriving Repr, DecidableEq

/-- Embeds `AptKeyManager.install_key`: import the key material (fed on
stdin, with `LANG=C.UTF-8` forced) into the keyring file resolved against the
*configured* keyrings directory, then `chmod 0o644` the file. -/
def install_key (o : Subprocess) (keyrings_dir : String) (key : String)
    (key_id : String) (fs : Fs) : InstallResult :=
  let keyring_file := _keyring_file key_id (some keyrings_dir)
  let inv := importInv keyrings_dir key key_id
  let pr := o inv fs
  if pr.1.returncode ≠ 0 then
    { result := .error (.fromKey pr.1.output key)
      logs := [.debug ("Executing: " ++ String.intercalate " " inv.cmd)]
      invocations := [inv]
      fs := pr.2 }
  else
    { result := .ok ()
      logs := [.debug ("Executing: " ++ String.intercalate " " inv.cmd),
               .debug ("Installed apt repository key:\n" ++ key)]
      invocations := [inv]
      fs := pr.2.chmod keyring_file 0o644 }

/-- Embeds `AptKeyManager.install_key_from_keyserver`: fetch `key_id` from
`key_server` (with `LANG=C.UTF-8` forced and a private `0o700` temporary
home directory) into the keyring file resolved against the *configured*
keyrings directory, then `chmod 0o644` the file.  The Python default for
`key_server` is `"keyserver.ubuntu.com"`; callers here always pass it
explicitly.  `tmpdir` is the name `tempfile.TemporaryDirectory` chose. -/
def install_key_from_keyserver (o : Subprocess) (keyrings_dir : String)
    (tmpdir : String) (key_id : String) (key_server : String) (fs : Fs) :
    InstallResult :=
  let keyring_file := _keyring_file key_id (some keyrings_dir)
  let fs0 := fs.chmod tmpdir 0o700
  let inv := recvKeysInv keyrings_dir tmpdir key_id key_server
  let pr := o inv fs0
  if pr.1.returncode ≠ 0 then
    { result := .error (.fromKeyserver pr.1.output key_id key_server)
      logs := [.debug ("Executing: " ++ String.intercalate " " inv.cmd)]
      invocations := [inv]
      fs := pr.2 }
  else
    { result := .ok ()
      logs := [.debug ("Executing: " ++ String.intercalate " " inv.cmd)]
      invocations := [inv]
      fs := pr.2.chmod keyring_file 0o644 }

/-- Embedding of `package_repository.PackageRepository`: the PPA variant, the
direct Apt variant (explicit key id, optional key server), and any other
variant (which the orchestrator must reject). -/
inductive PackageRepository where
  | ppa (ppa : String)
  | apt (key_id : String) (key_server : Option String)
  | other (description : String)
deriving Repr, DecidableEq

/-- Step 1 of `install_package_repository_key`: the `isinstance` dispatch
deriving `(key_id, key_server)`.  `ppaLookup` embeds the external collaborator
`apt_ppa.get_launchpad_ppa_key_id`. -/
def repoKeyInfo (ppaLookup : String → String) :
    PackageRepository → Except InstallError (String × Option String)
  | .ppa p => .ok (ppaLookup p, none)
  | .apt key_id key_server => .ok (key_id, key_server)
  | .other d => .error (.runtime ("unhandled package repo type: " ++ d))

/-- Result of the embedded orchestrator. -/
structure OrchestratorResult where
  result : Except InstallError Bool
  logs : List LogMsg
  invocations : List Invocation
  fs : Fs
deriving Repr, DecidableEq

/-- Embeds `AptKeyManager.install_package_repository_key`: dispatch on the
repository variant, short-circuit when the key is already installed, then
install from a local asset when one matches, else from the (defaulted)
keyserver.  Returns `true` iff the key configuration was changed. -/
def install_package_repository_key (o : Subprocess)
    (ppaLookup : String → String) (keyrings_dir key_assets tmpdir : String)
    (package_repo : PackageRepository) (fs : Fs) : OrchestratorResult :=
  match repoKeyInfo ppaLookup package_repo with
  | .error e => { result := .error e, logs := [], invocations := [], fs := fs }
  | .ok (key_id, key_server) =>
    let chk := is_key_installed o key_id fs
    if chk.installed then
      { result := .ok false
        logs := chk.logs ++ [.debug ("Key " ++ key_id ++ " already installed.")]
        invocations := chk.invocations
        fs := chk.fs }
    else
      let logs1 := chk.logs ++ [.debug ("Key " ++ key_id ++ " not found; adding")]
      match find_asset_with_key_id key_assets key_id chk.fs with
      | some key_path =>
        let ir := install_key o keyrings_dir (chk.fs.assetText key_path) key_id chk.fs
        match ir.result with
        | .error e =>
          { result := .error (.gpg e), logs := logs1 ++ ir.logs
            invocations := chk.invocations ++ ir.invocations, fs := ir.fs }
        | .ok _ =>
          { result := .ok true, logs := logs1 ++ ir.logs
            invocations := chk.invocations ++ ir.invocations, fs := ir.fs }
      | none =>
        let ks := key_server.getD "keyserver.ubuntu.com"
        let ir := install_key_from_keyserver o keyrings_dir tmpdir key_id ks chk.fs
        match ir.result with
        | .error e =>
          { result := .error (.gpg e), logs := logs1 ++ ir.logs
            invocations := chk.invocations ++ ir.invocations, fs := ir.fs }
        | .ok _ =>
          { result := .ok true, logs := logs1 ++ ir.logs
            invocations := chk.invocations ++ ir.invocations, fs := ir.fs }

/-! ## A faithful model of the external gpg tool

The claims about idempotency need a concrete oracle implementing the
documented behaviour of gpg that the code relies on (spec §4.2/§6): `list-key`
exits 0 when the key is in the keyring and 2 when it is not; `import` adds the
fingerprints of the stdin key material to the keyring file; `recv-keys` adds
the requested key identifier.  `keysOf` abstracts which key identifiers a
piece of key material contains. -/

/-- Strip the leading `gnupg-ring:` (11 characters) from a `--keyring`
argument, recovering the file path. -/
def dropRingTag (s : String) : String := String.mk (s.data.drop 11)

lemma dropRingTag_gnupg_ring (p : String) : dropRingTag (_gnupg_ring p) = p := by
  cases p with
  | mk data =>
    show String.mk ((("gnupg-ring:".data ++ data)).drop 11) = String.mk data
    have h : ("gnupg-ring:".data).length = 11 := rfl
    rw [← h, List.drop_left]

/-- The external gpg tool modelled faithfully (see section comment). -/
def realGpg (keysOf : String → List String) : Subprocess := fun inv fs =>
  match inv.cmd with
  | ["gpg", "--batch", "--no-default-keyring", "--keyring", ring,
     "--list-key", kid] =>
    let path := dropRingTag ring
    if kid ∈ fs.keysIn path then ({ returncode := 0, output := "" }, fs)
    else ({ returncode := 2, output := "gpg: error reading key: No public key" }, fs)
  | ["gpg", "--batch", "--no-default-keyring", "--keyring", ring,
     "--import", "-"] =>
    let path := dropRingTag ring
    ({ returncode := 0, output := "" },
      fs.addKeys path (keysOf (inv.stdin.getD "")))
  | ["gpg", "--batch", "--no-default-keyring", "--homedir", _,
     "--keyring", ring, "--keyserver", _, "--recv-keys", kid] =>
    ({ returncode := 0, output := "" }, fs.addKeys (dropRingTag ring) [kid])
  | _ => ({ returncode := 1, output := "gpg: invalid option" }, fs)

/-! ## Basic lemmas about the filesystem model -/

lemma lookupAssoc_setAssoc_self {α : Type} (m : List (String × α)) (k : String)
    (v : α) : lookupAssoc (setAssoc m k v) k = some v := by
  simp [lookupAssoc, setAssoc, List.find?]

lemma Fs.fileExists_addKeys_self (fs : Fs) (p : String) (ks : List String) :
    (fs.addKeys p ks).fileExists p = true := by
  simp [Fs.fileExists, Fs.addKeys, lookupAssoc_setAssoc_self]

lemma Fs.keysIn_addKeys_self (fs : Fs) (p : String) (ks : List String) :
    (fs.addKeys p ks).keysIn p =
      fs.keysIn p ++ ks.filter (fun k => k ∉ fs.keysIn p) := by
  simp [Fs.keysIn, Fs.addKeys, lookupAssoc_setAssoc_self]

lemma Fs.mem_keysIn_addKeys (fs : Fs) (p : String) (ks : List String)
    (a : String) (ha : a ∈ ks) : a ∈ (fs.addKeys p ks).keysIn p := by
  rw [Fs.keysIn_addKeys_self]
  by_cases hin : a ∈ fs.keysIn p
  · exact List.mem_append_left _ hin
  · exact List.mem_append_right _ (List.mem_filter.mpr ⟨ha, by simpa using hin⟩)

lemma Fs.chmod_keyrings (fs : Fs) (q : String) (m : Nat) :
    (fs.chmod q m).keyrings = fs.keyrings := rfl

lemma Fs.chmod_assets (fs : Fs) (q : String) (m : Nat) :
    (fs.chmod q m).assets = fs.assets := rfl

lemma Fs.fileExists_chmod (fs : Fs) (q : String) (m : Nat) (p : String) :
    (fs.chmod q m).fileExists p = fs.fileExists p := rfl

lemma Fs.keysIn_chmod (fs : Fs) (q : String) (m : Nat) (p : String) :
    (fs.chmod q m).keysIn p = fs.keysIn p := rfl

lemma Fs.mode_chmod_self (fs : Fs) (p : String) (m : Nat) :
    (fs.chmod p m).mode p = some m := by
  simp [Fs.mode, Fs.chmod, lookupAssoc_setAssoc_self]

lemma keyring_file_default_eq :
    ∀ key_id, _keyring_file key_id none =
      _keyring_file key_id (some "/etc/apt/keyrings") := fun _ => rfl

/-! ## Behaviour of the methods under the faithful gpg oracle -/

lemma realGpg_list_key (ko : String → List String) (kid : String) (fs : Fs) :
    realGpg ko (listKeyInv kid) fs =
      if kid ∈ fs.keysIn (_keyring_file kid none) then
        ({ returncode := 0, output := "" }, fs)
      else ({ returncode := 2,
              output := "gpg: error reading key: No public key" }, fs) := by
  show (if kid ∈ fs.keysIn (dropRingTag (_gnupg_ring (_keyring_file kid none)))
    then _ else _) = _
  rw [dropRingTag_gnupg_ring]

lemma realGpg_import (ko : String → List String) (d key kid : String) (fs : Fs) :
    realGpg ko (importInv d key kid) fs =
      ({ returncode := 0, output := "" },
        fs.addKeys (_keyring_file kid (some d)) (ko key)) := by
  show (({ returncode := 0, output := "" } : ProcResult),
      fs.addKeys (dropRingTag (_gnupg_ring (_keyring_file kid (some d)))) (ko key)) = _
  rw [dropRingTag_gnupg_ring]

lemma realGpg_recv_keys (ko : String → List String) (d tmp kid srv : String)
    (fs : Fs) :
    realGpg ko (recvKeysInv d tmp kid srv) fs =
      ({ returncode := 0, output := "" },
        fs.addKeys (_keyring_file kid (some d)) [kid]) := by
  show (({ returncode := 0, output := "" } : ProcResult),
      fs.addKeys (dropRingTag (_gnupg_ring (_keyring_file kid (some d)))) [kid]) = _
  rw [dropRingTag_gnupg_ring]

/-- Recognizer for a keyserver-fetch (`--recv-keys`) command line. -/
def isRecvKeysCmd (inv : Invocation) : Bool :=
  match inv.cmd with
  | ["gpg", "--batch", "--no-default-keyring", "--homedir", _, "--keyring", _,
     "--keyserver", _, "--recv-keys", _] => true
  | _ => false

lemma is_key_installed_realGpg_fs (ko : String → List String) (kid : String)
    (fs : Fs) : (is_key_installed (realGpg ko) kid fs).fs = fs := by
  simp only [is_key_installed]
  rw [realGpg_list_key]
  by_cases h : fs.fileExists (_keyring_file kid none) = false
  · simp [h]
  · by_cases hm : kid ∈ fs.keysIn (_keyring_file kid none) <;> simp [h, hm]

lemma is_key_installed_realGpg_installed (ko : String → List String)
    (kid : String) (fs : Fs) :
    (is_key_installed (realGpg ko) kid fs).installed =
      (fs.fileExists (_keyring_file kid none) &&
        decide (kid ∈ fs.keysIn (_keyring_file kid none))) := by
  simp only [is_key_installed]
  rw [realGpg_list_key]
  by_cases h : fs.fileExists (_keyring_file kid none) = false
  · simp [h]
  · have h' : fs.fileExists (_keyring_file kid none) = true := by
      revert h; cases fs.fileExists (_keyring_file kid none) <;> simp
    by_cases hm : kid ∈ fs.keysIn (_keyring_file kid none) <;> simp [hm, h']

lemma install_key_realGpg (ko : String → List String) (d key kid : String)
    (fs : Fs) :
    install_key (realGpg ko) d key kid fs =
      { result := .ok ()
        logs := [.debug ("Executing: " ++
            String.intercalate " " (importInv d key kid).cmd),
          .debug ("Installed apt repository key:\n" ++ key)]
        invocations := [importInv d key kid]
        fs := (fs.addKeys (_keyring_file kid (some d)) (ko key)).chmod
          (_keyring_file kid (some d)) 0o644 } := by
  simp only [install_key]
  rw [realGpg_import]
  simp [importInv]

lemma install_key_from_keyserver_realGpg (ko : String → List String)
    (d tmp kid srv : String) (fs : Fs) :
    install_key_from_keyserver (realGpg ko) d tmp kid srv fs =
      { result := .ok ()
        logs := [.debug ("Executing: " ++
            String.intercalate " " (recvKeysInv d tmp kid srv).cmd)]
        invocations := [recvKeysInv d tmp kid srv]
        fs := (((fs.chmod tmp 0o700).addKeys (_keyring_file kid (some d))
          [kid]).chmod (_keyring_file kid (some d)) 0o644) } := by
  simp only [install_key_from_keyserver]
  rw [realGpg_recv_keys]
  simp [recvKeysInv]

lemma is_key_installed_invocations (o : Subprocess) (kid : String) (fs : Fs) :
    (is_key_installed o kid fs).invocations =
      (if fs.fileExists (_keyring_file kid none) = false then []
       else [listKeyInv kid]) := by
  simp only [is_key_installed]
  by_cases h : fs.fileExists (_keyring_file kid none) = false
  · simp [h]
  · have h' : fs.fileExists (_keyring_file kid none) = true := by
      revert h; cases fs.fileExists (_keyring_file kid none) <;> simp
    simp only [h', Bool.true_eq_false, if_false]
    split <;> rfl

lemma install_key_invocations (o : Subprocess) (d key kid : String) (fs : Fs) :
    (install_key o d key kid fs).invocations = [importInv d key kid] := by
  simp only [install_key]
  split <;> rfl

lemma install_key_from_keyserver_invocations (o : Subprocess)
    (d tmp kid srv : String) (fs : Fs) :
    (install_key_from_keyserver o d tmp kid srv fs).invocations =
      [recvKeysInv d tmp kid srv] := by
  simp only [install_key_from_keyserver]
  split <;> rfl

/-! ## Claim theorems -/

/-- C4: when the keyring file for the (default-directory) resolved path does
not exist on disk, `is_key_installed` returns `false` immediately, makes no
subprocess invocation at all, and leaves the filesystem untouched (so no
empty keyring file appears as a side effect), for any oracle behaviour. -/
theorem presence_short_circuit (o : Subprocess) (key_id : String) (fs : Fs)
    (h : fs.fileExists (_keyring_file key_id none) = false) :
    (is_key_installed o key_id fs).installed = false ∧
    (is_key_installed o key_id fs).invocations = [] ∧
    (is_key_installed o key_id fs).fs = fs := by
  refine ⟨?_, ?_, ?_⟩ <;> simp [is_key_installed, h]

/-- Witness for `presence_short_circuit`: an empty filesystem and an oracle
that would report success if it were ever consulted. -/
theorem presence_short_circuit_witness :
    (Fs.mk [] [] []).fileExists (_keyring_file "ABCD1234" none) = false ∧
      ((is_key_installed (fun _ fs => ({ returncode := 0, output := "" }, fs))
          "ABCD1234" (Fs.mk [] [] [])).installed = false ∧
        (is_key_installed (fun _ fs => ({ returncode := 0, output := "" }, fs))
          "ABCD1234" (Fs.mk [] [] [])).invocations = [] ∧
        (is_key_installed (fun _ fs => ({ returncode := 0, output := "" }, fs))
          "ABCD1234" (Fs.mk [] [] [])).fs = Fs.mk [] [] []) :=
  ⟨by decide,
    presence_short_circuit (fun _ fs => ({ returncode := 0, output := "" }, fs))
      "ABCD1234" (Fs.mk [] [] []) (by decide)⟩

/-- C5: when the keyring file exists and the `--list-key` subprocess is run
with exit code `c`, `is_key_installed` returns `true` exactly when `c = 0`,
and an unexpected-failure `emit.progress` message appears in the log exactly
when `c` is neither `0` nor `2`.  The function returns a boolean in every
case — the embedding has no exception outcome for it. -/
theorem presence_exit_code_interpretation (o : Subprocess) (key_id : String)
    (fs fs' : Fs) (c : Int) (out : String)
    (hex : fs.fileExists (_keyring_file key_id none) = true)
    (hrun : o (listKeyInv key_id) fs = ({ returncode := c, output := out }, fs')) :
    (is_key_installed o key_id fs).installed = decide (c = 0) ∧
    (is_key_installed o key_id fs).logs.any LogMsg.isProgress =
      (decide (c ≠ 0) && decide (c ≠ 2)) := by
  simp only [is_key_installed, hex, Bool.true_eq_false, if_false, hrun]
  by_cases hc : c = 0
  · simp [hc, LogMsg.isProgress]
  · by_cases hc2 : c = 2 <;>
      simp [hc, hc2, LogMsg.isProgress, List.any_append]

/-- Witness for `presence_exit_code_interpretation`: keyring file present,
oracle exiting with the unexpected code `5`. -/
theorem presence_exit_code_interpretation_witness :
    (Fs.mk [("/etc/apt/keyrings/craft-ABCD1234.gpg", [])] [] []).fileExists
        (_keyring_file "ABCD1234" none) = true ∧
      ((is_key_installed (fun _ fs => ({ returncode := 5, output := "boom" }, fs))
          "ABCD1234"
          (Fs.mk [("/etc/apt/keyrings/craft-ABCD1234.gpg", [])] [] [])).installed =
        decide ((5 : Int) = 0) ∧
      (is_key_installed (fun _ fs => ({ returncode := 5, output := "boom" }, fs))
          "ABCD1234"
          (Fs.mk [("/etc/apt/keyrings/craft-ABCD1234.gpg", [])] [] [])).logs.any
        LogMsg.isProgress = (decide ((5 : Int) ≠ 0) && decide ((5 : Int) ≠ 2))) :=
  ⟨by decide,
    presence_exit_code_interpretation
      (fun _ fs => ({ returncode := 5, output := "boom" }, fs)) "ABCD1234"
      (Fs.mk [("/etc/apt/keyrings/craft-ABCD1234.gpg", [])] [] [])
      (Fs.mk [("/etc/apt/keyrings/craft-ABCD1234.gpg", [])] [] [])
      5 "boom" (by decide) rfl⟩

/-- C9: for any repository reference that is neither the PPA variant nor the
direct Apt variant, the orchestrator raises the `RuntimeError` contract
violation before any presence check or installation: no log, no subprocess
invocation, and an unchanged filesystem. -/
theorem unhandled_variant_contract (o : Subprocess) (pl : String → String)
    (d a t desc : String) (fs : Fs) :
    install_package_repository_key o pl d a t (.other desc) fs =
      { result := .error (.runtime ("unhandled package repo type: " ++ desc)),
        logs := [], invocations := [], fs := fs } := rfl

/-- C7: whenever `install_key` or `install_key_from_keyserver` succeeds, the
keyring file resolved against the configured directory ends with permission
mode exactly `0o644`, whatever the subprocess did to the filesystem (the
`os.chmod` runs last; the model's chmod sets the mode outright, which is what
`os.chmod` does independently of the umask). -/
theorem keyring_mode_after_install (o : Subprocess)
    (d key key_id tmp srv : String) (fs : Fs) :
    ((install_key o d key key_id fs).result = .ok () →
      (install_key o d key key_id fs).fs.mode
        (_keyring_file key_id (some d)) = some 0o644) ∧
    ((install_key_from_keyserver o d tmp key_id srv fs).result = .ok () →
      (install_key_from_keyserver o d tmp key_id srv fs).fs.mode
        (_keyring_file key_id (some d)) = some 0o644) := by
  constructor
  · intro hok
    simp only [install_key] at hok ⊢
    by_cases hc : (o (importInv d key key_id) fs).1.returncode ≠ 0
    · rw [if_pos hc] at hok
      exact absurd hok (by simp)
    · rw [if_neg hc]
      exact Fs.mode_chmod_self _ _ _
  · intro hok
    simp only [install_key_from_keyserver] at hok ⊢
    by_cases hc :
      (o (recvKeysInv d tmp key_id srv) (fs.chmod tmp 0o700)).1.returncode ≠ 0
    · rw [if_pos hc] at hok
      exact absurd hok (by simp)
    · rw [if_neg hc]
      exact Fs.mode_chmod_self _ _ _

/-- Witness for `keyring_mode_after_install`: a succeeding oracle on an empty
filesystem, for both installation paths. -/
theorem keyring_mode_after_install_witness :
    ((install_key (fun _ fs => ({ returncode := 0, output := "" }, fs))
        "/etc/apt/keyrings" "KEYMATERIAL" "ABCD1234" (Fs.mk [] [] [])).result =
          .ok () ∧
      (install_key (fun _ fs => ({ returncode := 0, output := "" }, fs))
        "/etc/apt/keyrings" "KEYMATERIAL" "ABCD1234" (Fs.mk [] [] [])).fs.mode
        (_keyring_file "ABCD1234" (some "/etc/apt/keyrings")) = some 0o644) ∧
    ((install_key_from_keyserver
        (fun _ fs => ({ returncode := 0, output := "" }, fs))
        "/etc/apt/keyrings" "/tmp/x" "ABCD1234" "keyserver.ubuntu.com"
        (Fs.mk [] [] [])).result = .ok () ∧
      (install_key_from_keyserver
        (fun _ fs => ({ returncode := 0, output := "" }, fs))
        "/etc/apt/keyrings" "/tmp/x" "ABCD1234" "keyserver.ubuntu.com"
        (Fs.mk [] [] [])).fs.mode
        (_keyring_file "ABCD1234" (some "/etc/apt/keyrings")) = some 0o644) :=
  ⟨⟨by decide,
    (keyring_mode_after_install
      (fun _ fs => ({ returncode := 0, output := "" }, fs))
      "/etc/apt/keyrings" "KEYMATERIAL" "ABCD1234" "/tmp/x"
      "keyserver.ubuntu.com" (Fs.mk [] [] [])).1 (by decide)⟩,
   ⟨by decide,
    (keyring_mode_after_install
      (fun _ fs => ({ returncode := 0, output := "" }, fs))
      "/etc/apt/keyrings" "KEYMATERIAL" "ABCD1234" "/tmp/x"
      "keyserver.ubuntu.com" (Fs.mk [] [] [])).2 (by decide)⟩⟩

/-- C8 counterexample: the claim says *every* external tool invocation forces
`LANG=C.UTF-8`, but with the keyring file present the `--list-key` call made
by `is_key_installed` passes no environment mapping at all (`subprocess.run`
is called without `env`), so the claim fails on this concrete state. -/
theorem locale_not_forced_on_list_key :
    ((is_key_installed (fun _ fs => ({ returncode := 0, output := "" }, fs))
        "ABCD1234"
        (Fs.mk [("/etc/apt/keyrings/craft-ABCD1234.gpg", ["ABCD1234"])] []
          [])).invocations.all
      (fun inv => inv.env == some [("LANG", "C.UTF-8")])) = false := by decide

/-- C8 amended: the `--import` and `--recv-keys` invocations force exactly
`LANG=C.UTF-8`; the `--list-key` invocation inherits the process environment
(no `env` is passed); and all three command lines start with the fixed
baseline `gpg --batch --no-default-keyring`. -/
theorem gpg_invocation_env_and_baseline (o : Subprocess)
    (key_id d key tmp srv : String) (fs : Fs) :
    ((is_key_installed o key_id fs).invocations.all
      (fun inv => inv.env == none && inv.cmd.take 3 == _gpg_prefix)) = true ∧
    ((install_key o d key key_id fs).invocations.all
      (fun inv =>
        inv.env == some [("LANG", "C.UTF-8")] &&
          inv.cmd.take 3 == _gpg_prefix)) = true ∧
    ((install_key_from_keyserver o d tmp key_id srv fs).invocations.all
      (fun inv =>
        inv.env == some [("LANG", "C.UTF-8")] &&
          inv.cmd.take 3 == _gpg_prefix)) = true := by
  refine ⟨?_, ?_, ?_⟩
  · rw [is_key_installed_invocations]
    split
    · rfl
    · rfl
  · rw [install_key_invocations]
    rfl
  · rw [install_key_from_keyserver_invocations]
    rfl

/-- C10: the presence check is a classmethod — in the embedding it takes no
keyrings directory at all and resolves the keyring path with
`_keyring_file key_id none`, i.e. under the fixed default
`/etc/apt/keyrings`; consequently it answers `false` whenever the
default-directory file is missing even when the configured-directory file
exists and holds the key, while `install_key` and
`install_key_from_keyserver` address the configured-directory path in the
commands they build. -/
theorem presence_default_dir_vs_install_configured_dir (o : Subprocess)
    (key_id d key tmp srv : String) (fs : Fs)
    (habsent : fs.fileExists (_keyring_file key_id none) = false)
    (hpresent : fs.fileExists (_keyring_file key_id (some d)) = true) :
    _keyring_file key_id none =
      "/etc/apt/keyrings" ++ "/craft-" ++ pyUpper (pySliceLast 8 key_id) ++
        ".gpg" ∧
    (is_key_installed o key_id fs).installed = false ∧
    (install_key o d key key_id fs).invocations = [importInv d key key_id] ∧
    (install_key_from_keyserver o d tmp key_id srv fs).invocations =
      [recvKeysInv d tmp key_id srv] := by
  refine ⟨rfl, ?_, install_key_invocations o d key key_id fs,
    install_key_from_keyserver_invocations o d tmp key_id srv fs⟩
  simp [is_key_installed, habsent]

/-- Witness for `presence_default_dir_vs_install_configured_dir`: the
configured directory `/opt/kr` holds the key, the default directory holds
nothing. -/
theorem presence_default_dir_witness :
    ((Fs.mk [("/opt/kr/craft-ABCD1234.gpg", ["ABCD1234"])] [] []).fileExists
        (_keyring_file "ABCD1234" none) = false ∧
      (Fs.mk [("/opt/kr/craft-ABCD1234.gpg", ["ABCD1234"])] [] []).fileExists
        (_keyring_file "ABCD1234" (some "/opt/kr")) = true) ∧
    (is_key_installed (fun _ fs => ({ returncode := 0, output := "" }, fs))
      "ABCD1234"
      (Fs.mk [("/opt/kr/craft-ABCD1234.gpg", ["ABCD1234"])] [] [])).installed =
      false :=
  ⟨⟨by decide, by decide⟩,
    (presence_default_dir_vs_install_configured_dir
      (fun _ fs => ({ returncode := 0, output := "" }, fs)) "ABCD1234"
      "/opt/kr" "KEY" "/tmp/x" "keyserver.ubuntu.com"
      (Fs.mk [("/opt/kr/craft-ABCD1234.gpg", ["ABCD1234"])] [] [])
      (by decide) (by decide)).2.1⟩

lemma no_recv_in_presence_trace (o : Subprocess) (kid : String) (fs : Fs) :
    ((is_key_installed o kid fs).invocations.all
      (fun inv => !(isRecvKeysCmd inv))) = true := by
  rw [is_key_installed_invocations]
  split
  · rfl
  · rfl

/-- C2: when the key is reported missing and a matching local asset exists,
the orchestrator's complete subprocess trace is the presence-check trace
followed by exactly one `--import` invocation fed the asset's contents, and
no invocation in the whole trace is a keyserver fetch (`--recv-keys`). -/
theorem asset_precedence (o : Subprocess) (pl : String → String)
    (d a t kid ap : String) (ks : Option String) (repo : PackageRepository)
    (fs : Fs)
    (hrepo : repoKeyInfo pl repo = .ok (kid, ks))
    (hchk : (is_key_installed o kid fs).installed = false)
    (hasset :
      find_asset_with_key_id a kid (is_key_installed o kid fs).fs = some ap) :
    (install_package_repository_key o pl d a t repo fs).invocations =
      (is_key_installed o kid fs).invocations ++
        [importInv d ((is_key_installed o kid fs).fs.assetText ap) kid] ∧
    ((install_package_repository_key o pl d a t repo fs).invocations.all
      (fun inv => !(isRecvKeysCmd inv))) = true := by
  have htrace :
      (install_package_repository_key o pl d a t repo fs).invocations =
        (is_key_installed o kid fs).invocations ++
          [importInv d ((is_key_installed o kid fs).fs.assetText ap) kid] := by
    simp only [install_package_repository_key, hrepo, hchk, Bool.false_eq_true,
      if_false, hasset]
    split <;> (rw [install_key_invocations])
  refine ⟨htrace, ?_⟩
  rw [htrace, List.all_append, no_recv_in_presence_trace]
  rfl

/-- Witness for `asset_precedence`: key absent (no default-directory keyring
file), matching asset `BCDEF012.asc` present under `/assets`. -/
theorem asset_precedence_witness :
    (repoKeyInfo (fun _ => "") (.apt "abcdef012" none) =
        .ok ("abcdef012", none) ∧
      (is_key_installed (fun _ fs => ({ returncode := 0, output := "" }, fs))
        "abcdef012"
        (Fs.mk [] [] [("/assets/BCDEF012.asc", "KEYMATERIAL")])).installed =
        false ∧
      find_asset_with_key_id "/assets" "abcdef012"
        (is_key_installed (fun _ fs => ({ returncode := 0, output := "" }, fs))
          "abcdef012"
          (Fs.mk [] [] [("/assets/BCDEF012.asc", "KEYMATERIAL")])).fs =
        some "/assets/BCDEF012.asc") ∧
    (install_package_repository_key
        (fun _ fs => ({ returncode := 0, output := "" }, fs)) (fun _ => "")
        "/etc/apt/keyrings" "/assets" "/tmp/x" (.apt "abcdef012" none)
        (Fs.mk [] [] [("/assets/BCDEF012.asc", "KEYMATERIAL")])).invocations =
      (is_key_installed (fun _ fs => ({ returncode := 0, output := "" }, fs))
        "abcdef012"
        (Fs.mk [] [] [("/assets/BCDEF012.asc", "KEYMATERIAL")])).invocations ++
        [importInv "/etc/apt/keyrings"
          ((is_key_installed (fun _ fs => ({ returncode := 0, output := "" }, fs))
            "abcdef012"
            (Fs.mk [] [] [("/assets/BCDEF012.asc", "KEYMATERIAL")])).fs.assetText
            "/assets/BCDEF012.asc") "abcdef012"] :=
  ⟨⟨by decide, by decide, by decide⟩,
    (asset_precedence (fun _ fs => ({ returncode := 0, output := "" }, fs))
      (fun _ => "") "/etc/apt/keyrings" "/assets" "/tmp/x" "abcdef012"
      "/assets/BCDEF012.asc" none (.apt "abcdef012" none)
      (Fs.mk [] [] [("/assets/BCDEF012.asc", "KEYMATERIAL")])
      (by decide) (by decide) (by decide)).1⟩

/-- C6: key absent, no matching asset, no key server in the configuration
(`none`, which covers every PPA variant as well as a direct Apt entry with no
server): the orchestrator fetches from the defaulted server
`keyserver.ubuntu.com`, returns `true` when the fetch exits 0 and raises
`AptGPGKeyInstallError` carrying the tool output, the key id and that server
when it exits non-zero. -/
theorem keyserver_default_fetch (o : Subprocess) (pl : String → String)
    (d a t kid : String) (repo : PackageRepository) (fs fs' : Fs) (c : Int)
    (out : String)
    (hrepo : repoKeyInfo pl repo = .ok (kid, none))
    (hchk : (is_key_installed o kid fs).installed = false)
    (hasset :
      find_asset_with_key_id a kid (is_key_installed o kid fs).fs = none)
    (hrun : o (recvKeysInv d t kid "keyserver.ubuntu.com")
      ((is_key_installed o kid fs).fs.chmod t 0o700) =
      ({ returncode := c, output := out }, fs')) :
    (install_package_repository_key o pl d a t repo fs).result =
      (if c = 0 then .ok true
       else .error (.gpg (.fromKeyserver out kid "keyserver.ubuntu.com"))) ∧
    (install_package_repository_key o pl d a t repo fs).invocations =
      (is_key_installed o kid fs).invocations ++
        [recvKeysInv d t kid "keyserver.ubuntu.com"] := by
  constructor
  · simp only [install_package_repository_key, hrepo, hchk, Bool.false_eq_true,
      if_false, hasset, Option.getD_none, install_key_from_keyserver, hrun]
    by_cases hc : c = 0
    · simp [hc]
    · simp [hc]
  · simp only [install_package_repository_key, hrepo, hchk, Bool.false_eq_true,
      if_false, hasset, Option.getD_none]
    split <;> rw [install_key_from_keyserver_invocations]

/-- Witness for `keyserver_default_fetch`: a PPA reference resolving to key
id `abcdef012`, empty filesystem (key absent, no asset), fetch succeeding. -/
theorem keyserver_default_fetch_witness :
    (repoKeyInfo (fun _ => "abcdef012") (.ppa "user/ppa") =
        .ok ("abcdef012", none) ∧
      (is_key_installed (fun _ fs => ({ returncode := 0, output := "" }, fs))
        "abcdef012" (Fs.mk [] [] [])).installed = false ∧
      find_asset_with_key_id "/assets" "abcdef012"
        (is_key_installed (fun _ fs => ({ returncode := 0, output := "" }, fs))
          "abcdef012" (Fs.mk [] [] [])).fs = none) ∧
    ((install_package_repository_key
        (fun _ fs => ({ returncode := 0, output := "" }, fs))
        (fun _ => "abcdef012") "/etc/apt/keyrings" "/assets" "/tmp/x"
        (.ppa "user/ppa") (Fs.mk [] [] [])).result =
      (if (0 : Int) = 0 then .ok true
       else .error
        (.gpg (.fromKeyserver "" "abcdef012" "keyserver.ubuntu.com"))) ∧
      (install_package_repository_key
        (fun _ fs => ({ returncode := 0, output := "" }, fs))
        (fun _ => "abcdef012") "/etc/apt/keyrings" "/assets" "/tmp/x"
        (.ppa "user/ppa") (Fs.mk [] [] [])).invocations =
      (is_key_installed (fun _ fs => ({ returncode := 0, output := "" }, fs))
        "abcdef012" (Fs.mk [] [] [])).invocations ++
        [recvKeysInv "/etc/apt/keyrings" "/tmp/x" "abcdef012"
          "keyserver.ubuntu.com"]) :=
  ⟨⟨by decide, by decide, by decide⟩,
    keyserver_default_fetch
      (fun _ fs => ({ returncode := 0, output := "" }, fs))
      (fun _ => "abcdef012") "/etc/apt/keyrings" "/assets" "/tmp/x"
      "abcdef012" (.ppa "user/ppa") (Fs.mk [] [] [])
      ((is_key_installed (fun _ fs => ({ returncode := 0, output := "" }, fs))
        "abcdef012" (Fs.mk [] [] [])).fs.chmod "/tmp/x" 0o700)
      0 "" (by decide) (by decide) (by decide) rfl⟩

lemma orchestrator_realGpg (ko : String → List String) (pl : String → String)
    (d a t kid : String) (ks : Option String) (repo : PackageRepository)
    (fs0 : Fs) (hrepo : repoKeyInfo pl repo = .ok (kid, ks)) :
    (install_package_repository_key (realGpg ko) pl d a t repo fs0).result =
      (if (is_key_installed (realGpg ko) kid fs0).installed then
        Except.ok false else Except.ok true) ∧
    (install_package_repository_key (realGpg ko) pl d a t repo fs0).fs =
      (if (is_key_installed (realGpg ko) kid fs0).installed then fs0
       else
        match find_asset_with_key_id a kid fs0 with
        | some ap =>
          (fs0.addKeys (_keyring_file kid (some d))
            (ko (fs0.assetText ap))).chmod (_keyring_file kid (some d)) 0o644
        | none =>
          ((fs0.chmod t 0o700).addKeys (_keyring_file kid (some d))
            [kid]).chmod (_keyring_file kid (some d)) 0o644) := by
  by_cases hi : (is_key_installed (realGpg ko) kid fs0).installed = true
  · constructor <;>
      simp [install_package_repository_key, hrepo, hi,
        is_key_installed_realGpg_fs]
  · have hi' : (is_key_installed (realGpg ko) kid fs0).installed = false := by
      revert hi; cases (is_key_installed (realGpg ko) kid fs0).installed <;> simp
    constructor
    · simp only [install_package_repository_key, hrepo, hi',
        Bool.false_eq_true, if_false]
      rw [is_key_installed_realGpg_fs]
      cases hfa : find_asset_with_key_id a kid fs0 with
      | some ap => simp [install_key_realGpg]
      | none => simp [install_key_from_keyserver_realGpg]
    · simp only [install_package_repository_key, hrepo, hi',
        Bool.false_eq_true, if_false]
      rw [is_key_installed_realGpg_fs]
      cases hfa : find_asset_with_key_id a kid fs0 with
      | some ap => simp [install_key_realGpg]
      | none => simp [install_key_from_keyserver_realGpg]

/-- C1 amended: idempotency holds only with the manager on the DEFAULT
keyrings directory `/etc/apt/keyrings` (the presence check always consults
that directory).  Under the faithful gpg oracle, with any repository giving
`(kid, ks)`, assuming any matching asset really contains the key id, if the
first call performs an installation (returns `true`), then the second call
returns `false` and leaves the filesystem — hence the keyring file's key
set — completely unchanged. -/
theorem orchestrator_idempotent_default_dir (ko : String → List String)
    (pl : String → String) (a t t2 kid : String) (ks : Option String)
    (repo : PackageRepository) (fs0 : Fs)
    (hrepo : repoKeyInfo pl repo = .ok (kid, ks))
    (hasset : ∀ ap, find_asset_with_key_id a kid fs0 = some ap →
      kid ∈ ko (fs0.assetText ap))
    (h1 : (install_package_repository_key (realGpg ko) pl "/etc/apt/keyrings"
      a t repo fs0).result = .ok true) :
    (install_package_repository_key (realGpg ko) pl "/etc/apt/keyrings" a t2
      repo
      (install_package_repository_key (realGpg ko) pl "/etc/apt/keyrings" a t
        repo fs0).fs).result = .ok false ∧
    (install_package_repository_key (realGpg ko) pl "/etc/apt/keyrings" a t2
      repo
      (install_package_repository_key (realGpg ko) pl "/etc/apt/keyrings" a t
        repo fs0).fs).fs =
      (install_package_repository_key (realGpg ko) pl "/etc/apt/keyrings" a t
        repo fs0).fs := by
  obtain ⟨hres1, hfs1⟩ :=
    orchestrator_realGpg ko pl "/etc/apt/keyrings" a t kid ks repo fs0 hrepo
  have hinst : (is_key_installed (realGpg ko) kid fs0).installed = false := by
    by_contra hne
    have htr : (is_key_installed (realGpg ko) kid fs0).installed = true := by
      revert hne
      cases (is_key_installed (realGpg ko) kid fs0).installed <;> simp
    rw [htr] at hres1
    simp only [if_pos rfl] at hres1
    have hcontra := h1.symm.trans hres1
    exact absurd hcontra (by simp)
  rw [hinst] at hres1 hfs1
  simp only [Bool.false_eq_true, if_false] at hres1 hfs1
  have hinst2 : (is_key_installed (realGpg ko) kid
      ((install_package_repository_key (realGpg ko) pl "/etc/apt/keyrings" a t
        repo fs0).fs)).installed = true := by
    rw [is_key_installed_realGpg_installed, hfs1, keyring_file_default_eq]
    cases hfa : find_asset_with_key_id a kid fs0 with
    | some ap =>
      simp [Fs.fileExists_chmod, Fs.keysIn_chmod, Fs.fileExists_addKeys_self]
      exact Fs.mem_keysIn_addKeys fs0 _ _ kid (hasset ap hfa)
    | none =>
      simp [Fs.fileExists_chmod, Fs.keysIn_chmod, Fs.fileExists_addKeys_self]
      exact Fs.mem_keysIn_addKeys _ _ _ kid (by simp)
  obtain ⟨hres2, hfs2⟩ :=
    orchestrator_realGpg ko pl "/etc/apt/keyrings" a t2 kid ks repo
      ((install_package_repository_key (realGpg ko) pl "/etc/apt/keyrings" a t
        repo fs0).fs) hrepo
  rw [hinst2] at hres2 hfs2
  simp only [if_pos rfl] at hres2 hfs2
  exact ⟨hres2, hfs2⟩

/-- C1 counterexample: with a NON-default keyrings directory `/tmp/keyrings`
the claim fails — the presence check still looks under `/etc/apt/keyrings`,
so under the faithful gpg oracle the second call re-installs and returns
`true`, not `false`. -/
theorem idempotency_fails_nondefault_dir :
    (install_package_repository_key (realGpg (fun s => [s])) (fun _ => "")
        "/tmp/keyrings" "/assets" "/tmp/x" (.apt "abcdef012" none)
        (Fs.mk [] [] [])).result = .ok true ∧
    (install_package_repository_key (realGpg (fun s => [s])) (fun _ => "")
        "/tmp/keyrings" "/assets" "/tmp/x" (.apt "abcdef012" none)
        (install_package_repository_key (realGpg (fun s => [s])) (fun _ => "")
          "/tmp/keyrings" "/assets" "/tmp/x" (.apt "abcdef012" none)
          (Fs.mk [] [] [])).fs).result = .ok true ∧
    ¬ (install_package_repository_key (realGpg (fun s => [s])) (fun _ => "")
        "/tmp/keyrings" "/assets" "/tmp/x" (.apt "abcdef012" none)
        (install_package_repository_key (realGpg (fun s => [s])) (fun _ => "")
          "/tmp/keyrings" "/assets" "/tmp/x" (.apt "abcdef012" none)
          (Fs.mk [] [] [])).fs).result = .ok false := by
  refine ⟨by decide, by decide, by decide⟩

/-- Witness for `orchestrator_idempotent_default_dir`: default directory,
key absent, no asset, keyserver install; the second call reports `false` and
changes nothing. -/
theorem orchestrator_idempotent_default_dir_witness :
    (repoKeyInfo (fun _ => "") (.apt "abcdef012" none) =
        .ok ("abcdef012", none) ∧
      (install_package_repository_key (realGpg (fun s => [s])) (fun _ => "")
        "/etc/apt/keyrings" "/assets" "/tmp/x" (.apt "abcdef012" none)
        (Fs.mk [] [] [])).result = .ok true) ∧
    (install_package_repository_key (realGpg (fun s => [s])) (fun _ => "")
        "/etc/apt/keyrings" "/assets" "/tmp/y" (.apt "abcdef012" none)
        (install_package_repository_key (realGpg (fun s => [s])) (fun _ => "")
          "/etc/apt/keyrings" "/assets" "/tmp/x" (.apt "abcdef012" none)
          (Fs.mk [] [] [])).fs).result = .ok false ∧
    (install_package_repository_key (realGpg (fun s => [s])) (fun _ => "")
        "/etc/apt/keyrings" "/assets" "/tmp/y" (.apt "abcdef012" none)
        (install_package_repository_key (realGpg (fun s => [s])) (fun _ => "")
          "/etc/apt/keyrings" "/assets" "/tmp/x" (.apt "abcdef012" none)
          (Fs.mk [] [] [])).fs).fs =
      (install_package_repository_key (realGpg (fun s => [s])) (fun _ => "")
        "/etc/apt/keyrings" "/assets" "/tmp/x" (.apt "abcdef012" none)
        (Fs.mk [] [] [])).fs :=
  ⟨⟨by decide, by decide⟩,
    orchestrator_idempotent_default_dir (fun s => [s]) (fun _ => "")
      "/assets" "/tmp/x" "/tmp/y" "abcdef012" none (.apt "abcdef012" none)
      (Fs.mk [] [] []) (by decide) (fun ap h => nomatch h) (by decide)⟩
